import Mathlib

/-!
Shallow embedding of the dynamic-model CRUD server (`src/server/index.js`).

The server keeps an in-memory registry `dynamicModels` (model name to
registry entry), an Express router whose routes are appended in registration
order and matched first-match-wins, a file store of persisted model
definitions, and a relational table store.  External effects (the
`fs.writeJson` call and the `DynamicModel.sync` call, both of which may
reject) are modelled as explicit `Except String Unit` outcome parameters.
-/

set_option autoImplicit false

namespace CrudApp

/-- JS-object-style association list lookup: first entry with the key. -/
def lookupEntry {α : Type} (m : List (String × α)) (k : String) : Option α :=
  (m.find? (fun p => p.1 == k)).map (fun p => p.2)

/-- JS-object-style assignment `m[k] = v`: replace in place, or append. -/
def setEntry {α : Type} (m : List (String × α)) (k : String) (v : α) :
    List (String × α) :=
  match m with
  | [] => [(k, v)]
  | p :: rest => if p.1 == k then (k, v) :: rest else p :: setEntry rest k v

/-- Sequelize column data types that `getSequelizeType` can produce. -/
inductive SequelizeType where
  | STRING
  | FLOAT
  | BOOLEAN
  | DATE
deriving DecidableEq, Repr

/-- Embeds `getSequelizeType` (index.js lines 116-129): a `switch` on the
field-type string whose `default` branch returns `Sequelize.STRING`. -/
def getSequelizeType (type : String) : SequelizeType :=
  if type == "string" then .STRING
  else if type == "number" then .FLOAT
  else if type == "boolean" then .BOOLEAN
  else if type == "date" then .DATE
  else .STRING

/-- One field of a model definition, as read from the JSON config.  The
`type` is kept as the raw string the JSON carries. -/
structure Field where
  name : String
  type : String
  required : Bool
  default : Option String
  unique : Bool
deriving DecidableEq, Repr

/-- The permission matrix `rbac`: JS object from role name to action list. -/
abbrev Rbac := List (String × List String)

/-- A model definition as carried by a config JSON / publish body. -/
structure ModelConfig where
  name : String
  fields : List Field
  rbac : Rbac
  tableName : Option String
deriving DecidableEq, Repr

/-- Embeds the permission test inside `createRbacMiddleware` (index.js lines
134-146): `permissions && (permissions.includes(action) ||
permissions.includes("all"))`.  A role absent from the matrix yields
`undefined`, which is falsy. -/
def isAllowed (rbac : Rbac) (role : String) (action : String) : Bool :=
  match lookupEntry rbac role with
  | none => false
  | some permissions => permissions.contains action || permissions.contains "all"

/-- Models the JS `toLowerCase()` call on a model name: lower-case the
string character by character. -/
def toLowerStr (s : String) : String := String.mk (s.data.map Char.toLower)

/-- Models the JS `endsWith` call, over the underlying character lists. -/
def endsWithStr (s suffix : String) : Bool := List.isSuffixOf suffix.data s.data

/-- The five CRUD handlers that `registerModel` installs on the router. -/
inductive CrudAction where
  | create
  | listAll
  | getById
  | update
  | delete
deriving DecidableEq, Repr

/-- The fixed action string each handler passes to `createRbacMiddleware`:
`create`, `read` (for both list and get-one), `update`, `delete`. -/
def actionName : CrudAction → String
  | .create => "create"
  | .listAll => "read"
  | .getById => "read"
  | .update => "update"
  | .delete => "delete"

/-- One route on the dynamic Express router.  Each route closure captures
the `modelConfig` and the bound table name at registration time. -/
structure Route where
  method : String
  base : String
  hasId : Bool
  action : CrudAction
  config : ModelConfig
  tableName : String
deriving DecidableEq, Repr

/-- A registry entry in `dynamicModels`: the Sequelize model handle (its
table binding) plus the config (index.js lines 170-173). -/
structure RegistryEntry where
  tableName : String
  config : ModelConfig
deriving DecidableEq, Repr

/-- A stored row: generated integer primary key plus attribute values. -/
abbrev RowData := List (String × String)

/-- A backing table in the table store. -/
structure Table where
  nextId : Nat
  rows : List (Nat × RowData)
deriving DecidableEq, Repr

/-- The mutable server state: the `dynamicModels` registry, the dynamic
router (routes in registration order), the table store, and the
`models-config` file store. -/
structure ServerState where
  dynamicModels : List (String × RegistryEntry)
  routes : List Route
  tables : List (String × Table)
  files : List (String × ModelConfig)
deriving DecidableEq, Repr

/-- The state of a freshly started server, before any model is loaded. -/
def emptyState : ServerState := ⟨[], [], [], []⟩

/-- `DynamicModel.sync` creates the backing table when missing; on
redefinition the existing table (and its rows) is altered in place. -/
def ensureTable (tables : List (String × Table)) (name : String) :
    List (String × Table) :=
  match lookupEntry tables name with
  | some _ => tables
  | none => setEntry tables name ⟨1, []⟩

/-- The five CRUD routes `registerModel` appends to `dynamicApiRouter`
(index.js lines 176-249), in source order, each capturing `modelConfig`. -/
def crudRoutes (config : ModelConfig) (tableName : String) : List Route :=
  let routeBase := "/" ++ toLowerStr config.name
  [ ⟨"POST", routeBase, false, .create, config, tableName⟩,
    ⟨"GET", routeBase, false, .listAll, config, tableName⟩,
    ⟨"GET", routeBase, true, .getById, config, tableName⟩,
    ⟨"PUT", routeBase, true, .update, config, tableName⟩,
    ⟨"DELETE", routeBase, true, .delete, config, tableName⟩ ]

/-- Embeds `registerModel` (index.js lines 151-256).  Source order: compute
the table name, define the model, store the entry in `dynamicModels`
(line 170), append the CRUD routes (lines 179-249), and only then `await
DynamicModel.sync({alter: true})` (line 255), whose outcome is the
`syncResult` parameter; a rejected sync propagates as the error AFTER the
registry and router were already mutated. -/
def registerModel (st : ServerState) (config : ModelConfig)
    (syncResult : Except String Unit) : ServerState × Except String Unit :=
  let modelName := config.name
  let tableName := match config.tableName with
    | some t => if t.isEmpty then toLowerStr modelName ++ "s" else t
    | none => toLowerStr modelName ++ "s"
  let entry : RegistryEntry := ⟨tableName, config⟩
  let st1 := { st with dynamicModels := setEntry st.dynamicModels modelName entry }
  let st2 := { st1 with routes := st1.routes ++ crudRoutes config tableName }
  match syncResult with
  | .ok _ => ({ st2 with tables := ensureTable st2.tables tableName }, .ok ())
  | .error m => (st2, .error m)

/-- The single-model schema endpoint `GET /api/models/:modelName`
(index.js lines 323-329): look the name up in `dynamicModels` and return
the stored `config` (404 when absent, modelled as `none`). -/
def getModelSchema (st : ServerState) (modelName : String) : Option ModelConfig :=
  (lookupEntry st.dynamicModels modelName).map (fun e => e.config)

/-- An authenticated CRUD request: HTTP method, base path (the lowercased
model segment under `/api`), optional `:id` path parameter, the verified
role claim from the JWT, and the JSON body. -/
structure Request where
  method : String
  base : String
  id : Option Nat
  role : String
  body : RowData
deriving DecidableEq, Repr

/-- Express route matching for the shapes the dynamic router holds:
method, base path, and presence of the `:id` segment must agree. -/
def routeMatches (r : Route) (req : Request) : Bool :=
  r.method == req.method && r.base == req.base && r.hasId == req.id.isSome

/-- Express dispatch: the FIRST route in registration order that matches
the request handles it. -/
def dispatch (st : ServerState) (req : Request) : Option Route :=
  st.routes.find? (fun r => routeMatches r req)

/-- An HTTP response: status code and message body. -/
structure HttpResponse where
  status : Nat
  msg : String
deriving DecidableEq, Repr

/-- Builds the attribute row `DynamicModel.create` would insert: for each
schema field take the body value, else the declared default, and reject
with a notNull violation when a required field has neither. -/
def buildRow : List Field → RowData → Except String RowData
  | [], _ => .ok []
  | f :: rest, body =>
    match buildRow rest body with
    | .error m => .error m
    | .ok r =>
      match lookupEntry body f.name with
      | some v => .ok ((f.name, v) :: r)
      | none =>
        match f.default with
        | some d => .ok ((f.name, d) :: r)
        | none =>
          if f.required then .error ("notNull Violation: " ++ f.name) else .ok r

/-- `item.update(req.body)`: overwrite each schema attribute present in
the body, leaving other attributes untouched. -/
def applyUpdate (fields : List Field) (row : RowData) (body : RowData) : RowData :=
  fields.foldl
    (fun r f =>
      match lookupEntry body f.name with
      | some v => setEntry r f.name v
      | none => r)
    row

/-- Fetches the bound table (a fresh empty one when it was never synced). -/
def getTable (st : ServerState) (tableName : String) : Table :=
  (lookupEntry st.tables tableName).getD ⟨1, []⟩

/-- Runs the route handler body after the RBAC middleware has passed
(index.js lines 183-248): Create inserts (201 / 400 on validation),
List returns all rows (200), GetById / Update / Delete resolve by primary
key and answer 404 `Not found` when absent. -/
def runHandler (st : ServerState) (r : Route) (req : Request) :
    ServerState × HttpResponse :=
  let tbl := getTable st r.tableName
  match r.action with
  | .create =>
    match buildRow r.config.fields req.body with
    | .error m => (st, ⟨400, m⟩)
    | .ok row =>
      let tbl' : Table := ⟨tbl.nextId + 1, tbl.rows ++ [(tbl.nextId, row)]⟩
      ({ st with tables := setEntry st.tables r.tableName tbl' }, ⟨201, "created"⟩)
  | .listAll => (st, ⟨200, "list"⟩)
  | .getById =>
    match req.id with
    | none => (st, ⟨404, "Not found"⟩)
    | some i =>
      if (tbl.rows.find? (fun p => p.1 == i)).isSome
      then (st, ⟨200, "item"⟩) else (st, ⟨404, "Not found"⟩)
  | .update =>
    match req.id with
    | none => (st, ⟨404, "Not found"⟩)
    | some i =>
      match tbl.rows.find? (fun p => p.1 == i) with
      | none => (st, ⟨404, "Not found"⟩)
      | some (_, row) =>
        let tbl' : Table :=
          ⟨tbl.nextId,
           tbl.rows.map (fun p =>
             if p.1 == i then (p.1, applyUpdate r.config.fields row req.body)
             else p)⟩
        ({ st with tables := setEntry st.tables r.tableName tbl' }, ⟨200, "updated"⟩)
  | .delete =>
    match req.id with
    | none => (st, ⟨404, "Not found"⟩)
    | some i =>
      if (tbl.rows.find? (fun p => p.1 == i)).isSome then
        let tbl' : Table := ⟨tbl.nextId, tbl.rows.filter (fun p => !(p.1 == i))⟩
        ({ st with tables := setEntry st.tables r.tableName tbl' }, ⟨204, ""⟩)
      else (st, ⟨404, "Not found"⟩)

/-- Full request handling through the dynamic router: Express dispatch to
the first matching route, then that route's `createRbacMiddleware` check
against its CAPTURED config (403 before any handler body runs), then the
handler body.  An unmatched request falls through to the Express 404. -/
def handleCrud (st : ServerState) (req : Request) : ServerState × HttpResponse :=
  match dispatch st req with
  | none => (st, ⟨404, "Cannot route"⟩)
  | some r =>
    if isAllowed r.config.rbac req.role (actionName r.action) then
      runHandler st r req
    else
      (st, ⟨403, "Forbidden: Role " ++ req.role ++ " cannot perform " ++
                 actionName r.action ++ " on " ++ r.config.name ++ "."⟩)

/-- The raw body of `POST /api/models/publish`: each top-level key may be
absent.  An absent key or an empty `name` string is falsy in the guard
`!modelName || !modelConfig.fields || !modelConfig.rbac`; an empty array
or object is truthy and passes it. -/
structure PublishBody where
  name : Option String
  fields : Option (List Field)
  rbac : Option Rbac
  tableName : Option String
deriving DecidableEq, Repr

/-- Embeds the `POST /api/models/publish` handler (index.js lines 283-310)
behind `authMiddleware` and `adminOnly` (lines 39-44).  Source order:
reject non-Admin with 403; reject a falsy name / fields / rbac with 400
`Invalid model configuration.`; `fs.writeJson` the config (outcome
`writeResult`); `registerModel` (sync outcome `syncResult`); answer 201.
Either rejected await is caught by the catch-all, which answers 500 with
the error message — with every `registerModel` side effect kept. -/
def publish (st : ServerState) (role : String) (b : PublishBody)
    (writeResult : Except String Unit) (syncResult : Except String Unit) :
    ServerState × HttpResponse :=
  if role != "Admin" then
    (st, ⟨403, "Forbidden. Admin access required."⟩)
  else
    match b.name, b.fields, b.rbac with
    | some n, some fs, some rb =>
      if n.isEmpty then (st, ⟨400, "Invalid model configuration."⟩)
      else
        match writeResult with
        | .error m => (st, ⟨500, m⟩)
        | .ok _ =>
          let cfg : ModelConfig := ⟨n, fs, rb, b.tableName⟩
          let st1 := { st with files := setEntry st.files n cfg }
          match registerModel st1 cfg syncResult with
          | (st2, .ok _) => (st2, ⟨201, "Model " ++ n ++ " published successfully."⟩)
          | (st2, .error m) => (st2, ⟨500, m⟩)
    | _, _, _ => (st, ⟨400, "Invalid model configuration."⟩)

/-- One file found in `models-config` at boot: its file name, the result of
`fs.readJson` on it (malformed JSON rejects), and the sync outcome of its
registration. -/
structure BootFile where
  fname : String
  content : Except String ModelConfig
  syncResult : Except String Unit

/-- The `for` loop of `loadModelsFromFiles`.  The surrounding `try` wraps
the WHOLE loop (index.js lines 262-275), so the first rejected `readJson`
or `registerModel` jumps to the catch (which only logs) and the remaining
files are never processed; non-`.json` files are skipped. -/
def loadLoop (st : ServerState) : List BootFile → ServerState
  | [] => st
  | f :: rest =>
    if endsWithStr f.fname ".json" then
      match f.content with
      | .error _ => st
      | .ok cfg =>
        match registerModel st cfg f.syncResult with
        | (st', .ok _) => loadLoop st' rest
        | (st', .error _) => st'
    else loadLoop st rest

/-- Embeds `loadModelsFromFiles` (index.js lines 261-276) over the listed
directory contents in directory order. -/
def loadModelsFromFiles (st : ServerState) (files : List BootFile) : ServerState :=
  loadLoop st files

/-! Concrete scenario data, used by witnesses and counterexamples. -/

/-- The spec scenario model `Product` with the wide permission matrix. -/
def cfgWide : ModelConfig :=
  ⟨"Product",
   [⟨"name", "string", true, none, false⟩, ⟨"price", "number", true, none, false⟩],
   [("Admin", ["all"]), ("Manager", ["read", "create", "update"]), ("Viewer", ["read"])],
   none⟩

/-- The same `Product` model republished with a fully narrowed matrix. -/
def cfgNarrow : ModelConfig :=
  ⟨"Product",
   [⟨"name", "string", true, none, false⟩, ⟨"price", "number", true, none, false⟩],
   [("Admin", ([] : List String)), ("Manager", []), ("Viewer", [])],
   none⟩

/-- Server state with `Product` registered once (wide matrix). -/
def stProduct : ServerState := (registerModel emptyState cfgWide (.ok ())).1

/-- Server state after registering `Product` wide and then re-registering
it with the narrowed matrix (both syncs succeed). -/
def stRepub : ServerState := (registerModel stProduct cfgNarrow (.ok ())).1

/-- An Admin Create request for `Product` with a well-formed body. -/
def reqCreatePen : Request :=
  ⟨"POST", "/product", none, "Admin", [("name", "Pen"), ("price", "1.5")]⟩

/-- A Viewer Create request for `Product`. -/
def reqViewerCreate : Request :=
  ⟨"POST", "/product", none, "Viewer", [("name", "Pen"), ("price", "1.5")]⟩

/-- The Create route the first registration of `Product` installed. -/
def rProductCreate : Route := ⟨"POST", "/product", false, .create, cfgWide, "products"⟩

/-- A publish body whose field list has a duplicated field name and a type
outside the `{string, number, boolean, date}` enumeration. -/
def badBody : PublishBody :=
  ⟨some "Gadget",
   some [⟨"x", "banana", false, none, false⟩, ⟨"x", "banana", false, none, false⟩],
   some [("Admin", ["all"])], none⟩

/-- A well-formed publish body for `Product`. -/
def goodBody : PublishBody :=
  ⟨some "Product", some [⟨"name", "string", true, none, false⟩],
   some [("Admin", ["all"])], none⟩

/-- A malformed persisted definition file: `readJson` rejects on it. -/
def badFile : BootFile := ⟨"bad.json", .error "Unexpected token", .ok ()⟩

/-- A well-formed `Widget` model definition. -/
def cfgWidget : ModelConfig :=
  ⟨"Widget", [⟨"w", "string", false, none, false⟩], [("Admin", ["all"])], none⟩

/-- A well-formed persisted definition file for `Widget`. -/
def goodFile : BootFile := ⟨"Widget.json", .ok cfgWidget, .ok ()⟩

/-! Helper lemmas. -/

/-- After `m[k] = v`, looking `k` up yields `v`. -/
theorem lookupEntry_setEntry {α : Type} (m : List (String × α)) (k : String) (v : α) :
    lookupEntry (setEntry m k v) k = some v := by
  induction m with
  | nil => simp [setEntry, lookupEntry, List.find?]
  | cons p rest ih =>
    simp only [setEntry]
    by_cases h : (p.1 == k) = true
    · simp [h, lookupEntry, List.find?]
    · simp only [h, if_false, Bool.false_eq_true]
      simp only [lookupEntry, List.find?, h] at ih ⊢
      exact ih

/-! Claim theorems. -/

/-- C2: `isAllowed` returns false when the role is absent from the matrix,
and otherwise returns true iff the role's action set contains the action
or contains `all` — for every action string, including ones outside the
create/read/update/delete enumeration. -/
theorem isAllowed_characterization (rbac : Rbac) (role action : String) :
    (lookupEntry rbac role = none → isAllowed rbac role action = false) ∧
    (∀ permissions, lookupEntry rbac role = some permissions →
      (isAllowed rbac role action = true ↔
        permissions.contains action = true ∨ permissions.contains "all" = true)) := by
  constructor
  · intro h
    simp [isAllowed, h]
  · intro permissions h
    simp [isAllowed, h]

/-- Witness for C2: a matrix granting `all` to Admin allows Admin the
action `frobnicate`, which is outside the CRUD enumeration. -/
theorem isAllowed_characterization_witness :
    isAllowed [("Admin", ["all"])] "Admin" "frobnicate" = true :=
  ((isAllowed_characterization [("Admin", ["all"])] "Admin" "frobnicate").2
    ["all"] (by decide)).mpr (Or.inr (by decide))

/-- C5: registering a definition and then looking its name up (the
single-model schema endpoint) returns a definition with the fields in the
same order and an equal permission matrix. -/
theorem register_lookup_roundtrip (st : ServerState) (cfg : ModelConfig) :
    ∃ found, getModelSchema (registerModel st cfg (.ok ())).1 cfg.name = some found ∧
      found.fields = cfg.fields ∧ found.rbac = cfg.rbac := by
  refine ⟨cfg, ?_, rfl, rfl⟩
  simp [registerModel, getModelSchema, lookupEntry_setEntry]

/-- C7 counterexample: on the input `banana`, outside the closed field-type
enumeration, `getSequelizeType` does not fail with an UnknownFieldType
error — its `default` branch returns the `STRING` column type (the
function has no failure outcome at all). -/
theorem getSequelizeType_unknown_returns_string :
    getSequelizeType "banana" = SequelizeType.STRING := by decide

/-- C7 amended: the type mapper is total over ALL strings: it maps the four
enumerated types to their column types and every other input to `STRING`
(the `default` branch), never failing. -/
theorem getSequelizeType_total_with_string_fallback :
    getSequelizeType "string" = SequelizeType.STRING ∧
    getSequelizeType "number" = SequelizeType.FLOAT ∧
    getSequelizeType "boolean" = SequelizeType.BOOLEAN ∧
    getSequelizeType "date" = SequelizeType.DATE ∧
    ∀ t, t ≠ "string" → t ≠ "number" → t ≠ "boolean" → t ≠ "date" →
      getSequelizeType t = SequelizeType.STRING := by
  refine ⟨rfl, rfl, rfl, rfl, ?_⟩
  intro t h1 h2 h3 h4
  simp [getSequelizeType, h1, h2, h3, h4]

/-- Witness for C7 amended: applied at the out-of-enumeration type
`banana2`. -/
theorem getSequelizeType_total_with_string_fallback_witness :
    "banana2" ≠ "string" ∧ getSequelizeType "banana2" = SequelizeType.STRING :=
  ⟨by decide,
   getSequelizeType_total_with_string_fallback.2.2.2.2 "banana2"
     (by decide) (by decide) (by decide) (by decide)⟩

/-- C10: any publish request whose verified role claim is not `Admin` is
answered 403 by the `adminOnly` middleware, with the whole server state —
file store, registry, routes, tables — unchanged. -/
theorem publish_non_admin_forbidden (st : ServerState) (role : String)
    (b : PublishBody) (wr sr : Except String Unit) (h : role ≠ "Admin") :
    publish st role b wr sr = (st, ⟨403, "Forbidden. Admin access required."⟩) := by
  simp [publish, h]

/-- Witness for C10: a Viewer publishing gets 403 and changes nothing. -/
theorem publish_non_admin_forbidden_witness :
    publish emptyState "Viewer" goodBody (.ok ()) (.ok ())
      = (emptyState, ⟨403, "Forbidden. Admin access required."⟩) :=
  publish_non_admin_forbidden emptyState "Viewer" goodBody (.ok ()) (.ok ())
    (by decide)

/-- C3: when the route that Express dispatches a CRUD request to fails its
RBAC check (the captured matrix does not allow the handler's fixed action
for the caller's role), the middleware answers 403 before the handler body
runs, and the whole server state — in particular every table's rows — is
unchanged. -/
theorem crud_denied_no_storage_effect (st : ServerState) (req : Request) (r : Route)
    (hdisp : dispatch st req = some r)
    (hperm : isAllowed r.config.rbac req.role (actionName r.action) = false) :
    (handleCrud st req).1 = st ∧ (handleCrud st req).2.status = 403 := by
  simp [handleCrud, hdisp, hperm]

/-- Witness for C3: a Viewer Create on the registered `Product` model is
dispatched, denied (Viewer only has `read`), and leaves the state as is. -/
theorem crud_denied_no_storage_effect_witness :
    dispatch stProduct reqViewerCreate = some rProductCreate ∧
    isAllowed rProductCreate.config.rbac reqViewerCreate.role
      (actionName rProductCreate.action) = false ∧
    ((handleCrud stProduct reqViewerCreate).1 = stProduct ∧
     (handleCrud stProduct reqViewerCreate).2.status = 403) :=
  ⟨by decide, by decide,
   crud_denied_no_storage_effect stProduct reqViewerCreate rProductCreate
     (by decide) (by decide)⟩

/-- C1 counterexample: republishing `Product` with a matrix allowing Admin
nothing does NOT deny the very next Create request — the request is served
with 201 by the handler captured at the first registration (Express
dispatches to the earliest matching route; the publish endpoint never
unregisters the old routes), even though the registry already shows the
narrowed definition. -/
theorem republish_narrowed_matrix_next_request_not_denied :
    isAllowed cfgNarrow.rbac "Admin" "create" = false ∧
    getModelSchema stRepub "Product" = some cfgNarrow ∧
    (handleCrud stRepub reqCreatePen).2.status = 201 := by decide

/-- C1 amended: redefining a model atomically substitutes the new entry in
the `dynamicModels` registry, but the next CRUD request is dispatched to
the FIRST registration's route and therefore evaluated entirely under the
old definition (old fields and old permission matrix together — no request
mixes the two definitions, but none observes the new permissions either). -/
theorem republish_dispatches_first_registration
    (st : ServerState) (cfgA cfgB : ModelConfig) (role : String) (body : RowData)
    (sB : Except String Unit)
    (hroutes : st.routes = []) (hname : cfgB.name = cfgA.name) :
    (dispatch (registerModel (registerModel st cfgA (.ok ())).1 cfgB sB).1
        ⟨"POST", "/" ++ toLowerStr cfgA.name, none, role, body⟩).map Route.config
      = some cfgA ∧
    getModelSchema (registerModel (registerModel st cfgA (.ok ())).1 cfgB sB).1
        cfgA.name = some cfgB := by
  constructor
  · cases sB <;>
      simp [registerModel, dispatch, crudRoutes, routeMatches, hroutes]
  · rw [← hname]
    cases sB <;> simp [registerModel, getModelSchema, lookupEntry_setEntry]

/-- Witness for C1 amended: the `Product` wide-then-narrow republish; the
next Create request is dispatched to the route capturing the wide config
while the registry holds the narrowed one. -/
theorem republish_dispatches_first_registration_witness :
    (dispatch stRepub
        ⟨"POST", "/" ++ toLowerStr cfgWide.name, none, "Admin", []⟩).map Route.config
      = some cfgWide ∧
    getModelSchema stRepub cfgWide.name = some cfgNarrow :=
  republish_dispatches_first_registration emptyState cfgWide cfgNarrow "Admin" []
    (.ok ()) rfl (by decide)

/-- C4 counterexample: `Product` is active with the wide config; a
re-registration whose sync rejects still replaces the registry entry — the
lookup afterwards returns the failed definition, not the previous one. -/
theorem failed_register_mutates_registry :
    getModelSchema stProduct "Product" = some cfgWide ∧
    cfgNarrow ≠ cfgWide ∧
    getModelSchema (registerModel stProduct cfgNarrow (.error "boom")).1 "Product"
      = some cfgNarrow := by decide

/-- C4 amended: `registerModel` stores the new entry (and appends the new
routes) BEFORE the fallible `sync` call, so a failed registration
propagates the error while leaving the new — not the previous — entry
visible in the registry. -/
theorem failed_register_leaves_new_entry (st : ServerState) (cfg : ModelConfig)
    (msg : String) :
    (registerModel st cfg (.error msg)).2 = .error msg ∧
    getModelSchema (registerModel st cfg (.error msg)).1 cfg.name = some cfg := by
  constructor
  · simp [registerModel]
  · simp [registerModel, getModelSchema, lookupEntry_setEntry]

/-- C6 counterexample: a publish body whose field list repeats the name `x`
and uses the type `banana` (outside the closed enumeration) is accepted
with 201 and registered as is — no ValidationError. -/
theorem publish_accepts_invalid_definition :
    (publish emptyState "Admin" badBody (.ok ()) (.ok ())).2.status = 201 ∧
    getModelSchema (publish emptyState "Admin" badBody (.ok ()) (.ok ())).1 "Gadget"
      = some ⟨"Gadget",
              [⟨"x", "banana", false, none, false⟩, ⟨"x", "banana", false, none, false⟩],
              [("Admin", ["all"])], none⟩ := by decide

/-- C6 amended: publish validation only checks that `name` is present and
non-empty and that the `fields` and `rbac` keys are present; any field
list — empty, with duplicate names, or with types outside the enumeration
— is accepted and registered unchanged. -/
theorem publish_validation_only_checks_presence
    (st : ServerState) (n : String) (fs : List Field) (rb : Rbac)
    (hn : n.isEmpty = false) :
    (publish st "Admin" ⟨some n, some fs, some rb, none⟩ (.ok ()) (.ok ())).2.status
      = 201 ∧
    getModelSchema
        (publish st "Admin" ⟨some n, some fs, some rb, none⟩ (.ok ()) (.ok ())).1 n
      = some ⟨n, fs, rb, none⟩ := by
  constructor <;>
    simp [publish, hn, registerModel, getModelSchema, lookupEntry_setEntry]

/-- Witness for C6 amended: a model with an EMPTY field list is published
successfully and registered. -/
theorem publish_validation_only_checks_presence_witness :
    ("Empty".isEmpty = false) ∧
    ((publish emptyState "Admin" ⟨some "Empty", some [], some [("Admin", ["all"])], none⟩
        (.ok ()) (.ok ())).2.status = 201 ∧
     getModelSchema
        (publish emptyState "Admin" ⟨some "Empty", some [], some [("Admin", ["all"])], none⟩
          (.ok ()) (.ok ())).1 "Empty"
      = some ⟨"Empty", [], [("Admin", ["all"])], none⟩) :=
  ⟨by decide,
   publish_validation_only_checks_presence emptyState "Empty" [] [("Admin", ["all"])]
     (by decide)⟩

/-- C8 counterexample: the publish in which persistence succeeds and
registration fails returns the SAME response as a publish in which
persistence itself fails — a generic 500 with the error message — although
the resulting file-store states differ; nothing distinguishable signals
the on-disk/in-memory divergence. -/
theorem partial_publish_same_response_as_generic :
    (publish emptyState "Admin" goodBody (.ok ()) (.error "boom")).2
      = (publish emptyState "Admin" goodBody (.error "boom") (.ok ())).2 ∧
    (publish emptyState "Admin" goodBody (.ok ()) (.error "boom")).1.files
      ≠ (publish emptyState "Admin" goodBody (.error "boom") (.ok ())).1.files := by
  decide

/-- C8 amended: the publish catch-all reports every rejected step as a
plain 500 carrying the error message; a registration failure after
successful persistence is indistinguishable by the response from a
persistence failure. -/
theorem publish_failures_generic_500
    (st : ServerState) (n : String) (fs : List Field) (rb : Rbac) (msg : String)
    (hn : n.isEmpty = false) :
    (publish st "Admin" ⟨some n, some fs, some rb, none⟩ (.ok ()) (.error msg)).2
      = ⟨500, msg⟩ ∧
    (publish st "Admin" ⟨some n, some fs, some rb, none⟩ (.error msg) (.ok ())).2
      = ⟨500, msg⟩ := by
  constructor <;> simp [publish, hn, registerModel]

/-- Witness for C8 amended: applied to the `Product` body with message
`boom`. -/
theorem publish_failures_generic_500_witness :
    (publish emptyState "Admin" goodBody (.ok ()) (.error "boom")).2 = ⟨500, "boom"⟩ ∧
    (publish emptyState "Admin" goodBody (.error "boom") (.ok ())).2 = ⟨500, "boom"⟩ :=
  publish_failures_generic_500 emptyState "Product"
    [⟨"name", "string", true, none, false⟩] [("Admin", ["all"])] "boom" (by decide)

/-- C9 counterexample: with a malformed file listed before the well-formed
`Widget.json`, boot registers nothing — `Widget` is only registered when
the malformed file is absent. -/
theorem boot_malformed_file_skips_rest :
    getModelSchema (loadModelsFromFiles emptyState [badFile, goodFile]) "Widget"
      = none ∧
    getModelSchema (loadModelsFromFiles emptyState [goodFile]) "Widget"
      = some cfgWidget := by decide

/-- C9 amended: the boot loader's try/catch wraps the whole loop, so the
first malformed `.json` file makes it log and STOP: files earlier in
directory order stay registered, files after the malformed one are never
processed. -/
theorem boot_malformed_file_aborts_loop
    (st : ServerState) (f : BootFile) (rest : List BootFile) (msg : String)
    (hjson : endsWithStr f.fname ".json" = true)
    (hbad : f.content = .error msg) :
    loadModelsFromFiles st (f :: rest) = st := by
  simp [loadModelsFromFiles, loadLoop, hjson, hbad]

/-- Witness for C9 amended: the malformed file aborts the loop before the
well-formed `Widget.json` behind it. -/
theorem boot_malformed_file_aborts_loop_witness :
    endsWithStr badFile.fname ".json" = true ∧
    loadModelsFromFiles emptyState [badFile, goodFile] = emptyState :=
  ⟨by decide,
   boot_malformed_file_aborts_loop emptyState badFile [goodFile] "Unexpected token"
     (by decide) rfl⟩

end CrudApp
